import Mathlib

/-!
Verification development for the chatbot-mvp backend
(`backend/app/services/{router_agent,llm_service,rag_service}.py` and
`backend/app/routers/messages.py`).

Python strings are modelled as Lean `String`, Python floats as `ℚ` where the
code only ever produces rational values (keyword scores, confidence tiers)
and as `ℝ` where square roots occur (cosine similarity and everything built
on it).  Python dicts of fixed shape are modelled as structures.  External
collaborators (the sentence-transformers embedding model, the LLM provider,
the evaluation service missing from the repository snapshot) are modelled as
explicit function/behaviour parameters, so theorems quantify over their
behaviour.
-/

/-- Python `pat.isprefix`-style check: does the second list start with the
first?  Used to model Python substring containment (`pat in s`). -/
def leadMatch : List Char → List Char → Bool
  | [], _ => true
  | _ :: _, [] => false
  | p :: ps, c :: cs => p == c && leadMatch ps cs

/-- Python `pat in s` on character lists: `pat` occurs contiguously in the
list. -/
def hasSub (pat : List Char) : List Char → Bool
  | [] => pat.isEmpty
  | c :: rest => leadMatch pat (c :: rest) || hasSub pat rest

/-- Python `pat in s` for strings (substring containment). -/
def strHas (s pat : String) : Bool :=
  hasSub pat.data s.data

/-- Python `s.lower()` (modelled per-character; the source only relies on
ASCII lowering). -/
def strLower (s : String) : String :=
  String.mk (s.data.map Char.toLower)

/-- Helper for `pyTokens`: accumulates the current word (reversed) while
scanning; whitespace runs separate words, empty words are dropped —
the semantics of Python `str.split()` with no separator argument. -/
def wordsRec : List Char → List Char → List String
  | acc, [] => if acc.isEmpty then [] else [String.mk acc.reverse]
  | acc, c :: rest =>
    if c.isWhitespace then
      if acc.isEmpty then wordsRec [] rest
      else String.mk acc.reverse :: wordsRec [] rest
    else wordsRec (c :: acc) rest

/-- Python `s.split()` (no argument): split on whitespace runs, no empty
tokens. -/
def pyTokens (s : String) : List String :=
  wordsRec [] s.data

/-- The index-wise product sum that `np.dot(vec1, vec2)` computes on
equal-length 1-D vectors.  On vectors of different lengths `np.dot` does not
compute a truncated sum: it raises `ValueError` (shapes not aligned); that
error path is modelled by `np_dot` below, so `dotList` itself is only ever
the value of a `np.dot` call that returned. -/
def dotList (vec1 vec2 : List ℚ) : ℚ :=
  (List.zipWith (fun a b => a * b) vec1 vec2).sum

/-- Python `np.dot` on two 1-D vectors: `none` models the `ValueError` raised
when the lengths differ, `some` the computed inner product. -/
def np_dot (vec1 vec2 : List ℚ) : Option ℚ :=
  if vec1.length = vec2.length then some (dotList vec1 vec2) else none

/-- Sum of squares of a vector (the square of its L2 norm). -/
def sumSq (vec : List ℚ) : ℚ :=
  (vec.map (fun x => x * x)).sum

/-- Source `np.linalg.norm`: the L2 norm of a vector. -/
noncomputable def normL2 (vec : List ℚ) : ℝ :=
  Real.sqrt ((sumSq vec : ℚ) : ℝ)

open Classical in
/-- Source `rag_service.cosine_similarity` (lines 127-139) restricted to its
non-raising domain: returns 0.0 when either norm is zero, otherwise the dot
product divided by the product of norms.  The full behaviour, including the
uncaught `ValueError` that `np.dot` raises on vectors of different lengths,
is `cosine_similarity_py` below; on equal-length vectors (every call this
repository makes — all embeddings come from one model) the two agree. -/
noncomputable def cosine_similarity (vec1 vec2 : List ℚ) : ℝ :=
  if normL2 vec1 = 0 ∨ normL2 vec2 = 0 then 0
  else ((dotList vec1 vec2 : ℚ) : ℝ) / (normL2 vec1 * normL2 vec2)

open Classical in
/-- Source `rag_service.cosine_similarity` (lines 127-139) with the error
path: `dot_product = np.dot(vec1, vec2)` raises `ValueError` on vectors of
different lengths and the function does not catch it (`none`); otherwise the
zero-norm guard and the division run as in the source. -/
noncomputable def cosine_similarity_py (vec1 vec2 : List ℚ) : Option ℝ :=
  match np_dot vec1 vec2 with
  | none => none
  | some dot_product =>
    if normL2 vec1 = 0 ∨ normL2 vec2 = 0 then some 0
    else some (((dot_product : ℚ) : ℝ) / (normL2 vec1 * normL2 vec2))

/-- One step of the stable descending insertion used to model Python
`list.sort(key=..., reverse=True)` / `sorted(..., reverse=True)`:
insert `x` before the first element whose key is `≤ key x`, which keeps
equal-keyed elements in their original relative order. -/
def insertDesc {α β : Type} [LinearOrder β] (key : α → β) (x : α) : List α → List α
  | [] => [x]
  | y :: ys => if key y ≤ key x then x :: y :: ys else y :: insertDesc key x ys

/-- Python stable descending sort by key (`sorted(l, key=key, reverse=True)`). -/
def sortByDesc {α β : Type} [LinearOrder β] (key : α → β) (l : List α) : List α :=
  l.foldr (insertDesc key) []

/-- A `KnowledgeBase` row (`models.py` lines 190-206), the fields the search
functions read. -/
structure KBArticle where
  id : ℕ
  title : String
  content : String
  category : String
  tags : String
deriving DecidableEq

/-- A matched-article dict as built by both search paths
(`rag_service.py` lines 187-194 and 231-238) and consumed by
`llm_service.py`.  Every dict this repository builds carries both
`match_score` and `similarity` keys (always set to the same value by the
searches), so they are required fields here. -/
structure Article where
  id : ℕ
  title : String
  content : String
  category : String
  match_score : ℚ
  similarity : ℚ
deriving DecidableEq

/-- Python `set(s.split())`: the set of whitespace-separated tokens. -/
def tokenSet (s : String) : Finset String :=
  (pyTokens s).toFinset

/-- Source `rag_service.search_knowledge_base_keyword` (lines 207-241): lowercase
word-set overlap scoring, stable descending sort on `match_score`, truncation
to `top_k`.  Articles with an empty intersection are dropped (their dicts are
never built). -/
def search_knowledge_base_keyword (query : String) (all_articles : List KBArticle)
    (top_k : ℕ) : List Article :=
  let query_lower := strLower query
  let query_words : Finset String := tokenSet query_lower
  let matched_articles := all_articles.filterMap (fun article =>
    let article_text := strLower (article.title ++ " " ++ article.content ++ " " ++ article.tags)
    let article_words : Finset String := tokenSet article_text
    let common_words := query_words ∩ article_words
    if common_words ≠ ∅ then
      let match_score : ℚ :=
        if query_words ≠ ∅ then (common_words.card : ℚ) / (query_words.card : ℚ) else 0
      some { id := article.id, title := article.title, content := article.content,
             category := article.category, match_score := match_score,
             similarity := match_score }
    else none)
  (sortByDesc (fun a => a.match_score) matched_articles).take top_k

/-- Source `llm_service.calculate_confidence_score` (lines 41-65).  The source reads
`matched_articles[0].get("similarity") or matched_articles[0].get("match_score", 0)`:
with both keys present (as everywhere in this repository), Python `or` falls
through to `match_score` exactly when `similarity` is falsy, i.e. `0`. -/
def calculate_confidence_score (matched_articles : List Article) (_query : String) : ℚ :=
  match matched_articles with
  | [] => 3/10
  | article :: _ =>
    let best_score : ℚ :=
      if article.similarity ≠ 0 then article.similarity else article.match_score
    if best_score > 7/10 then 17/20
    else if best_score > 1/2 then 13/20
    else if best_score > 3/10 then 2/5
    else 3/10

/-- The effective best score `calculate_confidence_score` works with: the
`similarity` entry unless it is falsy (`0`), in which case Python `or` falls
through to `match_score`. -/
def effective_best_score (article : Article) : ℚ :=
  if article.similarity ≠ 0 then article.similarity else article.match_score

/-- The keyword-family branch chain of `llm_service.generate_fallback_response`
(lines 206-227), reached when no sufficiently matched article exists. -/
def fallback_keyword_reply (user_message_lower : String) : String :=
  if ["return", "refund", "exchange"].any (fun w => strHas user_message_lower w) then
    "I\x27d be happy to help with your return. Our return policy allows returns within 30 days of purchase. Could you provide your order number so I can check the specifics?"
  else if ["shipping", "delivery", "tracking"].any (fun w => strHas user_message_lower w) then
    "I can help you with shipping information. Could you please provide your order number? Standard shipping typically takes 3-5 business days."
  else if ["account", "login", "password", "reset"].any (fun w => strHas user_message_lower w) then
    "For account issues, I can help you reset your password or update your account information. What specific issue are you experiencing?"
  else if ["product", "item", "specs", "details", "price"].any (fun w => strHas user_message_lower w) then
    "I\x27d be happy to provide product information. Which product are you interested in learning more about?"
  else if ["cancel", "order"].any (fun w => strHas user_message_lower w) then
    "I can help you with your order. If you\x27d like to cancel or modify an order, please provide your order number and I\x27ll check if it\x27s possible."
  else if ["hi", "hello", "hey"].any (fun w => strHas user_message_lower w) then
    "Hello! I\x27m here to help you with any questions about your order, returns, shipping, or our products. How can I assist you today?"
  else
    "I\x27m here to help! I can assist with questions about orders, returns, shipping, account issues, and product information. Could you provide more details about what you need help with?"

/-- Source `llm_service.generate_fallback_response` (lines 194-227): a templated
article excerpt when the best match scores above 0.3, otherwise the keyword
branch chain. -/
def generate_fallback_response (user_message : String) (matched_articles : List Article) :
    String :=
  let user_message_lower := strLower user_message
  match matched_articles with
  | article :: _ =>
    if article.match_score > 3/10 then
      "Based on our " ++ article.category ++ " policy:\n\n" ++ article.content.take 200 ++
        "...\n\nWould you like more specific information about this?"
    else fallback_keyword_reply user_message_lower
  | [] => fallback_keyword_reply user_message_lower

/-- Behaviour of one call to the external provider: it either raises
(timeout, auth failure, malformed response, ...) or returns a string. -/
inductive GenOutcome where
  | raises : GenOutcome
  | succeeds : String → GenOutcome
deriving DecidableEq

/-- An LLM provider as `generate_ai_response` observes it: the
`is_available()` answer and the behaviour of `generate_response`. -/
structure ProviderB where
  available : Bool
  outcome : GenOutcome
deriving DecidableEq

/-- The dict returned by `llm_service.generate_ai_response` (lines 155-164). -/
structure GenResult where
  response : String
  confidence_score : ℚ
  matched_articles : List Article
  reasoning : String
  auto_send_threshold : ℚ
  should_auto_send : Bool
deriving DecidableEq

/-- Source `llm_service.generate_ai_response` (lines 68-164), with the knowledge-base
search result, the resolved provider (`get_provider`; `none` when the factory
found no provider) and the resolved configuration passed as inputs.  The
tenant-config resolution (lines 85-108) is pure defaulting and the prompt
strings (lines 116-144) only feed the provider, whose reaction is quantified
by `provider`, so neither changes the returned dict beyond what is modelled
here. -/
def generate_ai_response (llm_provider : String) (provider : Option ProviderB)
    (matched_articles : List Article) (user_message : String)
    (auto_send_threshold : ℚ) : GenResult :=
  let confidence := calculate_confidence_score matched_articles user_message
  let fallbackResult : String → GenResult := fun reasoning =>
    { response := generate_fallback_response user_message matched_articles,
      confidence_score := confidence, matched_articles := matched_articles,
      reasoning := reasoning,
      auto_send_threshold := auto_send_threshold,
      should_auto_send := decide (auto_send_threshold ≤ confidence) }
  match provider with
  | some p =>
    if p.available then
      match p.outcome with
      | GenOutcome.succeeds s =>
        { response := s, confidence_score := confidence,
          matched_articles := matched_articles,
          reasoning := "Generated using " ++ llm_provider ++ " LLM",
          auto_send_threshold := auto_send_threshold,
          should_auto_send := decide (auto_send_threshold ≤ confidence) }
      | GenOutcome.raises =>
        fallbackResult ("Fallback (provider " ++ llm_provider ++ " failed)")
    else fallbackResult ("Fallback (provider " ++ llm_provider ++ " unavailable)")
  | none => fallbackResult ("Fallback (provider " ++ llm_provider ++ " unavailable)")

/-- Source `router_agent.py` lines 298-299: the explicit escalation phrases. -/
def escalation_keywords : List String :=
  ["human", "agent", "representative", "speak to someone", "escalate"]

/-- Source `router_agent.should_escalate` (lines 290-311): escalation phrase in the
lowercased message, else complaint intent, else confidence below 0.4. -/
def should_escalate (intent : String) (confidence : ℚ) (user_message : String) : Bool :=
  if escalation_keywords.any (fun keyword => strHas (strLower user_message) keyword) then
    true
  else if intent == "complaint" then
    true
  else if confidence < 2/5 then
    true
  else
    false

/-- Source `router_agent.INTENT_EXAMPLES` (lines 18-147), in dict insertion order. -/
def INTENT_EXAMPLES : List (String × List String) :=
  [("faq",
    ["What is your return policy?", "How do I return an item?",
     "What is your refund policy?", "Do you offer exchanges?",
     "How long do I have to return something?", "What are your shipping options?",
     "How much does shipping cost?", "Do you ship internationally?",
     "What are the delivery times?", "Is there free shipping?",
     "How do I reset my password?", "How do I create an account?",
     "How do I update my email address?", "Can I change my password?",
     "How do I close my account?", "What payment methods do you accept?",
     "Do you accept PayPal?", "Is it safe to use my credit card?",
     "Can I pay with gift cards?", "What are your business hours?",
     "Where are you located?", "Do you have a warranty?",
     "What is your price match policy?", "Do you offer gift wrapping?"]),
   ("order_inquiry",
    ["Where is my order?", "When will my order arrive?",
     "What\x27s the status of order #12345?", "Has my order shipped yet?",
     "Why hasn\x27t my order arrived?", "Track my order", "Check order status",
     "I need to cancel my order", "Can I modify my order?",
     "Can I change my shipping address?", "Can I add items to my order?",
     "Can I remove items from my order?", "I want to change my order",
     "I never received my order", "My tracking number isn\x27t working",
     "Part of my order is missing", "Wrong item in my order",
     "Duplicate order placed"]),
   ("technical_support",
    ["The website is not working", "The app keeps crashing",
     "I can\x27t load the page", "The site is slow", "Error message on website",
     "Page won\x27t load", "I can\x27t log into my account", "Login not working",
     "Forgot my password", "Account locked", "Can\x27t access my account",
     "I\x27m having trouble with checkout", "The payment failed",
     "Checkout isn\x27t working", "Payment declined", "Can\x27t complete purchase",
     "Error at checkout", "Credit card not accepted", "Images not loading",
     "Can\x27t download receipt", "Promo code not working",
     "Email confirmation not received"]),
   ("complaint",
    ["I\x27m not happy with my purchase", "The product arrived damaged",
     "This product is defective", "Product doesn\x27t match description",
     "Poor quality product", "Item broken on arrival", "The service was terrible",
     "I want to file a complaint", "This is unacceptable", "Very disappointed",
     "Horrible experience", "Terrible customer service", "Package arrived late",
     "Delivery person was rude", "Package left in rain", "Wrong item delivered",
     "Never received my package"]),
   ("general",
    ["Hello", "Hi there", "Hey", "Good morning", "Hi", "Help me",
     "I need assistance", "Can you help?", "Need help", "I have a question",
     "What can you do?", "What can you help me with?", "How can you assist?",
     "What services do you offer?", "Thank you", "Thanks", "Goodbye", "Bye"])]

/-- One entry of the `keyword_patterns` dict in `classify_intent_keyword` (lines
226-247): three keyword tiers. -/
structure KPat where
  strong : List String
  medium : List String
  weak : List String
deriving DecidableEq

/-- The `keyword_patterns` dict of `classify_intent_keyword`, in insertion order. -/
def keyword_patterns : List (String × KPat) :=
  [("order_inquiry",
    { strong := ["order #", "tracking", "track order", "order status", "where is my order"],
      medium := ["order", "shipment", "delivery", "package"],
      weak := ["cancel", "modify", "change order"] }),
   ("technical_support",
    { strong := ["not working", "error message", "can\x27t log", "won\x27t load", "keeps crashing"],
      medium := ["error", "bug", "crash", "broken", "login issue"],
      weak := ["help", "problem", "issue", "trouble"] }),
   ("complaint",
    { strong := ["file a complaint", "very disappointed", "this is unacceptable", "terrible service"],
      medium := ["complaint", "unhappy", "disappointed", "frustrated", "angry"],
      weak := ["bad", "damaged", "wrong", "defective", "poor"] }),
   ("faq",
    { strong := ["return policy", "refund policy", "shipping cost", "business hours"],
      medium := ["policy", "how do i", "what is", "do you have", "can i"],
      weak := ["return", "refund", "shipping", "warranty"] })]

/-- The per-intent score of the keyword classifier (lines 250-261): weighted
keyword hits, normalised by the count of strong keywords and clamped to 1. -/
def kpScore (user_lower : String) (p : KPat) : ℚ :=
  let score : ℚ :=
    ((p.strong.filter (fun keyword => strHas user_lower keyword)).length : ℚ) * 1 +
    ((p.medium.filter (fun keyword => strHas user_lower keyword)).length : ℚ) * (1/2) +
    ((p.weak.filter (fun keyword => strHas user_lower keyword)).length : ℚ) * (1/5)
  let max_score : ℚ := (p.strong.length : ℚ) * 1
  if max_score > 0 then min (score / max_score) 1 else 0

/-- The greeting list of `classify_intent_keyword` (line 264). -/
def greetings : List String :=
  ["hello", "hi", "hey", "good morning", "good afternoon"]

/-- Result dict of the keyword classification path (`intent`, `confidence`). -/
structure KIntentResult where
  intent : String
  confidence : ℚ
deriving DecidableEq

/-- Source `router_agent.classify_intent_keyword` (lines 219-287). -/
def classify_intent_keyword (user_message : String) : KIntentResult :=
  let user_lower := strLower user_message
  let scores : List (String × ℚ) :=
    keyword_patterns.map (fun p => (p.1, kpScore user_lower p.2))
  if greetings.any (fun greeting => strHas user_lower greeting) &&
      decide ((pyTokens user_lower).length ≤ 3) then
    { intent := "general", confidence := 7/10 }
  else
    match scores with
    | [] => { intent := "general", confidence := 1/2 }
    | s :: rest =>
      if (rest.map Prod.snd).foldl max s.2 = 0 then
        { intent := "general", confidence := 1/2 }
      else
        let best := rest.foldl (fun acc y => if y.2 > acc.2 then y else acc) s
        let confidence :=
          if best.2 > 3/5 then min (best.2 + 1/10) (17/20) else best.2
        { intent := best.1, confidence := confidence }

/-- Result dict of `classify_intent` (`intent`, `confidence`; the optional
`all_scores` entry is diagnostic output and not modelled). -/
structure RIntentResult where
  intent : String
  confidence : ℝ

/-- The `example_embeddings` list built for one intent category
(`classify_intent` lines 168-172): embed every example, skipping those whose
embedding is `None` or empty (Python `if emb:` truthiness). -/
def exEmbs (emb : String → Option (List ℚ)) (examples : List String) : List (List ℚ) :=
  examples.filterMap (fun ex =>
    match emb (strLower ex) with
    | some e => if e ≠ [] then some e else none
    | none => none)

/-- Mean of the top-3 similarities of the user embedding against the category
example embeddings (`classify_intent` lines 176-183). -/
noncomputable def topAvg (user_embedding : List ℚ) (example_embeddings : List (List ℚ)) : ℝ :=
  let similarities :=
    example_embeddings.map (fun ex_emb => cosine_similarity user_embedding ex_emb)
  let top_similarities := (sortByDesc (fun x => x) similarities).take 3
  top_similarities.sum / (top_similarities.length : ℝ)

/-- The `intent_scores` dict of `classify_intent` (lines 165-183): one score
per category whose example-embedding list is non-empty. -/
noncomputable def intent_scores_of (emb : String → Option (List ℚ))
    (user_embedding : List ℚ) : List (String × ℝ) :=
  INTENT_EXAMPLES.filterMap (fun ie =>
    match exEmbs emb ie.2 with
    | [] => none
    | _ :: _ => some (ie.1, topAvg user_embedding (exEmbs emb ie.2)))

open Classical in
/-- Source `router_agent.classify_intent` (lines 150-216).  `emb` models
`generate_embedding` together with `EMBEDDING_AVAILABLE`: when embeddings are
unavailable `generate_embedding` returns `None` for every input, which is
exactly the `emb _ = none` case, so both guards of the source collapse to the
`none` branch. -/
noncomputable def classify_intent (emb : String → Option (List ℚ))
    (user_message : String) : RIntentResult :=
  match emb (strLower user_message) with
  | none =>
    let k := classify_intent_keyword user_message
    { intent := k.intent, confidence := (k.confidence : ℝ) }
  | some user_embedding =>
    match intent_scores_of emb user_embedding with
    | [] => { intent := "general", confidence := (1/2 : ℝ) }
    | s :: rest =>
      match sortByDesc (fun p => p.2) (s :: rest) with
      | [] => { intent := "general", confidence := (1/2 : ℝ) }
      | best :: [] => { intent := best.1, confidence := best.2 }
      | best :: second :: _ =>
        let margin := best.2 - second.2
        { intent := best.1,
          confidence :=
            if margin > 3/20 then min (best.2 + 1/10) 1
            else if margin > 2/25 then min (best.2 + 1/20) 1
            else best.2 }

/-- A concrete embedding behaviour: only the string "hello" embeds (to the
unit vector `[1]`).  Among all lowercased intent examples exactly the
`general` example "Hello" embeds, so the embedding scoring path runs on the
greeting "hello". -/
def embHello : String → Option (List ℚ) :=
  fun s => if s = "hello" then some [1] else none

/-- A concrete embedding behaviour under which the user message "ugh" embeds
to `[1]` while the only embeddable example ("Hello", lowercased) embeds to
`[-1]`, making every computed similarity negative. -/
def embNeg : String → Option (List ℚ) :=
  fun s => if s = "ugh" then some [1] else if s = "hello" then some [-1] else none

/-- Source `models.MessageType` (models.py lines 30-36). -/
inductive MType where
  | customer : MType
  | ai_draft : MType
  | agent_edited : MType
  | final : MType
  | agent_only : MType
deriving DecidableEq

/-- A `messages` row (`models.Message`, lines 171-187), the fields the
message endpoints read and write. -/
structure MessageRec where
  id : ℕ
  conversation_id : ℕ
  content : String
  message_type : MType
  confidence_score : Option ℚ
  intent : Option String
  agent_type : Option String
  original_ai_content : Option String
deriving DecidableEq

/-- Source `routers/messages.MessageUpdate` (lines 84-90): every field optional. -/
structure MessageUpdate where
  content : Option String := none
  message_type : Option MType := none
  confidence_score : Option ℚ := none
  original_ai_content : Option String := none
  intent : Option String := none
  agent_type : Option String := none
deriving DecidableEq

/-- An `evaluation_metrics` row (`models.EvaluationMetrics`, lines 248-261)
as appended by `save_evaluation_metrics`. -/
structure EvalMetric where
  message_id : ℕ
  conversation_id : ℕ
  bleu_score : Option ℚ
  semantic_similarity : Option ℚ
  csat_score : Option ℕ
deriving DecidableEq

/-- Python truthiness of an optional string: `None` and `""` are falsy. -/
def truthyOptStr : Option String → Bool
  | none => false
  | some s => !(s == "")

/-- Source `routers/messages.update_message` (lines 93-170).  `stored` is the row
found for the path id (`none` models a missing row, raising 404).  `evalFn`
is modelled from the spec: `app.services.evaluation_service.evaluate_ai_response`
is imported here but its module is not part of the source snapshot; per spec
§4.8 it returns a BLEU score and a semantic similarity for the pair of texts,
and evaluation failures (the `except` logging branch, spec: "logged and
silently skipped") are modelled by `evalFn` returning `none`.  The returned
list holds the `EvaluationMetrics` rows appended by `save_evaluation_metrics`
during the update. -/
def update_message (evalFn : String → String → Option (ℚ × ℚ))
    (stored : Option MessageRec) (update : MessageUpdate) :
    Except ℕ (MessageRec × List EvalMetric) :=
  match stored with
  | none => Except.error 404
  | some message =>
    let message1 : MessageRec :=
      { message with
        content := update.content.getD message.content,
        message_type := update.message_type.getD message.message_type,
        confidence_score :=
          match update.confidence_score with
          | some c => some c
          | none => message.confidence_score,
        original_ai_content :=
          match update.original_ai_content with
          | some o => some o
          | none => message.original_ai_content,
        intent :=
          match update.intent with
          | some i => some i
          | none => message.intent,
        agent_type :=
          match update.agent_type with
          | some a => some a
          | none => message.agent_type }
    let original_ai_content : Option String :=
      match update.original_ai_content with
      | some o => some o
      | none =>
        if truthyOptStr message.original_ai_content then message.original_ai_content
        else none
    let final_message_type := update.message_type.getD message.message_type
    let is_edit := truthyOptStr original_ai_content &&
      decide (final_message_type = MType.agent_edited) && !(message1.content == "")
    let metrics : List EvalMetric :=
      if is_edit then
        match original_ai_content with
        | some o =>
          match evalFn o message1.content with
          | some scores =>
            [{ message_id := message.id, conversation_id := message.conversation_id,
               bleu_score := some scores.1, semantic_similarity := some scores.2,
               csat_score := none }]
          | none => []
        | none => []
      else []
    Except.ok (message1, metrics)

/-- Source `routers/messages.delete_message` (lines 173-228).  `Except.ok` carries
the id of the removed row; on `Except.error` the endpoint aborts before
`db.delete`, so the stored message is untouched. -/
def delete_message (stored : Option MessageRec) : Except ℕ ℕ :=
  match stored with
  | none => Except.error 404
  | some message =>
    if message.message_type = MType.customer then Except.error 403
    else Except.ok message.id

/-- C2: `should_escalate` is the pure disjunction of the three ordered rules;
keyword presence alone forces `true` whatever the other inputs are. -/
theorem should_escalate_spec (intent : String) (confidence : ℚ) (user_message : String) :
    should_escalate intent confidence user_message = true ↔
      ((∃ k ∈ escalation_keywords, strHas (strLower user_message) k = true) ∨
        intent = "complaint" ∨ confidence < 2/5) := by
  unfold should_escalate
  split
  · rename_i h
    simp only [List.any_eq_true] at h
    exact iff_of_true rfl (Or.inl h)
  · rename_i h
    simp only [List.any_eq_true] at h
    split
    · rename_i h2
      exact iff_of_true rfl (Or.inr (Or.inl (by exact eq_of_beq h2)))
    · rename_i h2
      have h2' : intent ≠ "complaint" := fun hc => by
        subst hc; simp at h2
      split
      · rename_i h3
        exact iff_of_true rfl (Or.inr (Or.inr h3))
      · rename_i h3
        constructor
        · intro hfalse; cases hfalse
        · rintro (hk | hi | hc)
          · exact absurd hk h
          · exact absurd hi h2'
          · exact absurd hc h3

lemma length_insertDesc {α β : Type} [LinearOrder β] (key : α → β) (x : α) (l : List α) :
    (insertDesc key x l).length = l.length + 1 := by
  induction l with
  | nil => rfl
  | cons y ys ih =>
    simp only [insertDesc]
    split
    · simp
    · simp [ih]

lemma mem_insertDesc {α β : Type} [LinearOrder β] (key : α → β) (a x : α) (l : List α) :
    a ∈ insertDesc key x l ↔ a = x ∨ a ∈ l := by
  induction l with
  | nil => simp [insertDesc]
  | cons y ys ih =>
    simp only [insertDesc]
    split
    · simp [List.mem_cons]
    · simp [List.mem_cons, ih]
      tauto

lemma sorted_insertDesc {α β : Type} [LinearOrder β] (key : α → β) (x : α) (l : List α)
    (h : List.Sorted (fun a b => key b ≤ key a) l) :
    List.Sorted (fun a b => key b ≤ key a) (insertDesc key x l) := by
  induction l with
  | nil => simp [insertDesc]
  | cons y ys ih =>
    rw [List.sorted_cons] at h
    obtain ⟨hy, hys⟩ := h
    simp only [insertDesc]
    split
    · rename_i hle
      rw [List.sorted_cons]
      refine ⟨fun b hb => ?_, ?_⟩
      · rcases List.mem_cons.mp hb with rfl | hb
        · exact hle
        · exact le_trans (hy b hb) hle
      · rw [List.sorted_cons]
        exact ⟨hy, hys⟩
    · rename_i hgt
      push_neg at hgt
      rw [List.sorted_cons]
      refine ⟨fun b hb => ?_, ih hys⟩
      rcases (mem_insertDesc key b x ys).mp hb with rfl | hb
      · exact le_of_lt hgt
      · exact hy b hb

lemma sortByDesc_cons {α β : Type} [LinearOrder β] (key : α → β) (x : α) (l : List α) :
    sortByDesc key (x :: l) = insertDesc key x (sortByDesc key l) := rfl

lemma length_sortByDesc {α β : Type} [LinearOrder β] (key : α → β) (l : List α) :
    (sortByDesc key l).length = l.length := by
  induction l with
  | nil => rfl
  | cons x xs ih =>
    rw [sortByDesc_cons, length_insertDesc, ih]
    rfl

lemma mem_sortByDesc {α β : Type} [LinearOrder β] (key : α → β) (a : α) (l : List α) :
    a ∈ sortByDesc key l ↔ a ∈ l := by
  induction l with
  | nil => exact Iff.rfl
  | cons x xs ih =>
    rw [sortByDesc_cons, mem_insertDesc]
    simp [ih]

lemma sorted_sortByDesc {α β : Type} [LinearOrder β] (key : α → β) (l : List α) :
    List.Sorted (fun a b => key b ≤ key a) (sortByDesc key l) := by
  induction l with
  | nil => simp [sortByDesc]
  | cons x xs ih =>
    rw [sortByDesc_cons]
    exact sorted_insertDesc key x _ ih

lemma fallback_keyword_reply_ne_empty (user_message_lower : String) :
    fallback_keyword_reply user_message_lower ≠ "" := by
  unfold fallback_keyword_reply
  split_ifs <;> decide

lemma generate_fallback_response_cons (user_message : String) (article : Article)
    (rest : List Article) :
    generate_fallback_response user_message (article :: rest) =
      (if article.match_score > 3/10 then
        "Based on our " ++ article.category ++ " policy:\n\n" ++ article.content.take 200 ++
          "...\n\nWould you like more specific information about this?"
      else fallback_keyword_reply (strLower user_message)) := rfl

lemma generate_fallback_response_ne_empty (user_message : String)
    (matched_articles : List Article) :
    generate_fallback_response user_message matched_articles ≠ "" := by
  cases matched_articles with
  | nil => exact fallback_keyword_reply_ne_empty _
  | cons article rest =>
    rw [generate_fallback_response_cons]
    split_ifs
    · intro h
      have hl := congrArg String.length h
      simp only [String.length_append] at hl
      have h1 : ("Based on our ").length = 13 := by decide
      have h2 : String.length "" = 0 := by decide
      rw [h1, h2] at hl
      omega
    · exact fallback_keyword_reply_ne_empty _

/-- C1 (amended): `generate_ai_response` is total and, on every provider
failure mode (missing provider, provider reporting unavailable, provider
raising), returns the deterministic non-empty fallback reply together with a
reasoning string disclosing the fallback and its cause; when the provider
succeeds, the response is exactly the provider output (which the function
does not check for emptiness) and the reasoning discloses primary
generation. -/
theorem generate_ai_response_amended (name : String) (provider : Option ProviderB)
    (arts : List Article) (msg : String) (thr : ℚ) :
    ((provider = none ∨ ∃ p, provider = some p ∧ p.available = false) →
      (generate_ai_response name provider arts msg thr).response =
          generate_fallback_response msg arts ∧
        (generate_ai_response name provider arts msg thr).response ≠ "" ∧
        (generate_ai_response name provider arts msg thr).reasoning =
          "Fallback (provider " ++ name ++ " unavailable)") ∧
    (∀ p, provider = some p → p.available = true → p.outcome = GenOutcome.raises →
      (generate_ai_response name provider arts msg thr).response =
          generate_fallback_response msg arts ∧
        (generate_ai_response name provider arts msg thr).response ≠ "" ∧
        (generate_ai_response name provider arts msg thr).reasoning =
          "Fallback (provider " ++ name ++ " failed)") ∧
    (∀ p s, provider = some p → p.available = true → p.outcome = GenOutcome.succeeds s →
      (generate_ai_response name provider arts msg thr).response = s ∧
        (generate_ai_response name provider arts msg thr).reasoning =
          "Generated using " ++ name ++ " LLM") := by
  refine ⟨?_, ?_, ?_⟩
  · rintro (rfl | ⟨p, rfl, hav⟩)
    · exact ⟨rfl, generate_fallback_response_ne_empty _ _, rfl⟩
    · simp only [generate_ai_response, hav]
      exact ⟨rfl, generate_fallback_response_ne_empty _ _, rfl⟩
  · rintro p rfl hav hout
    simp only [generate_ai_response, hav, hout]
    exact ⟨rfl, generate_fallback_response_ne_empty _ _, rfl⟩
  · rintro p s rfl hav hout
    simp only [generate_ai_response, hav, hout]
    exact ⟨rfl, rfl⟩

/-- Witness for the amended C1 theorem: with no provider resolved, the result
is the non-empty fallback reply and the reasoning discloses unavailability. -/
theorem generate_ai_response_amended_witness :
    (generate_ai_response "huggingface_inference" none [] "hi" (13/20)).response =
        generate_fallback_response "hi" [] ∧
      (generate_ai_response "huggingface_inference" none [] "hi" (13/20)).response ≠ "" ∧
      (generate_ai_response "huggingface_inference" none [] "hi" (13/20)).reasoning =
        "Fallback (provider huggingface_inference unavailable)" :=
  (generate_ai_response_amended "huggingface_inference" none [] "hi" (13/20)).1 (Or.inl rfl)

/-- C1 (counterexample to the claim as stated): when the available provider
succeeds with the empty string, the returned `response` is empty, so the
result is not always a non-empty string. -/
theorem generate_ai_response_counterexample :
    (generate_ai_response "openai"
        (some { available := true, outcome := GenOutcome.succeeds "" })
        [] "hi" (13/20)).response = "" := rfl

/-- C3 (counterexample to the claim as stated): a matched article whose
`similarity` is 0 but whose `match_score` is 0.9 yields confidence 0.85,
although the claim's tier table demands 0.30 for similarity ≤ 0.3 — Python
`or` skips the falsy similarity and uses `match_score`. -/
theorem calculate_confidence_score_counterexample :
    ({ id := 1, title := "t", content := "c", category := "g",
       match_score := 9/10, similarity := 0 } : Article).similarity ≤ 3/10 ∧
      calculate_confidence_score
        [{ id := 1, title := "t", content := "c", category := "g",
           match_score := 9/10, similarity := 0 }] "q" = 17/20 ∧
      (17/20 : ℚ) ≠ 3/10 := by
  refine ⟨by norm_num, ?_, by norm_num⟩
  norm_num [calculate_confidence_score]

lemma calculate_confidence_score_cons (a : Article) (rest : List Article) (q : String) :
    calculate_confidence_score (a :: rest) q =
      (if 7/10 < effective_best_score a then 17/20
       else if 1/2 < effective_best_score a then 13/20
       else if 3/10 < effective_best_score a then 2/5
       else 3/10) := rfl

/-- C3 (amended): the tier table holds for the effective best score (the
head article `similarity` field unless that is `0`, in which case its
`match_score`), and the mapping is monotone in that effective score. -/
theorem calculate_confidence_score_amended (l : List Article) (q : String) :
    (l = [] → calculate_confidence_score l q = 3/10) ∧
    (∀ a rest, l = a :: rest →
      ((7/10 < effective_best_score a → calculate_confidence_score l q = 17/20) ∧
       (1/2 < effective_best_score a → effective_best_score a ≤ 7/10 →
         calculate_confidence_score l q = 13/20) ∧
       (3/10 < effective_best_score a → effective_best_score a ≤ 1/2 →
         calculate_confidence_score l q = 2/5) ∧
       (effective_best_score a ≤ 3/10 → calculate_confidence_score l q = 3/10))) ∧
    (∀ (q2 : String) (l2 : List Article) (a a2 : Article) (rest rest2 : List Article),
      l = a :: rest → l2 = a2 :: rest2 →
      effective_best_score a ≤ effective_best_score a2 →
      calculate_confidence_score l q ≤ calculate_confidence_score l2 q2) := by
  refine ⟨?_, ?_, ?_⟩
  · rintro rfl
    rfl
  · rintro a rest rfl
    rw [calculate_confidence_score_cons]
    refine ⟨?_, ?_, ?_, ?_⟩
    · intro h
      split_ifs <;> linarith
    · intro h1 h2
      split_ifs <;> linarith
    · intro h1 h2
      split_ifs <;> linarith
    · intro h
      split_ifs <;> linarith
  · rintro q2 l2 a a2 rest rest2 rfl rfl h
    rw [calculate_confidence_score_cons, calculate_confidence_score_cons]
    split_ifs <;> linarith

/-- Witness for the amended C3 theorem at concrete inputs: a 0.8-similarity
match yields 0.85, and a lower effective score never yields a higher tier. -/
theorem calculate_confidence_score_amended_witness :
    calculate_confidence_score
        [{ id := 1, title := "t", content := "c", category := "g",
           match_score := 4/5, similarity := 4/5 }] "q" = 17/20 ∧
      calculate_confidence_score
          [{ id := 2, title := "u", content := "d", category := "h",
             match_score := 2/5, similarity := 2/5 }] "r" ≤
        calculate_confidence_score
          [{ id := 1, title := "t", content := "c", category := "g",
             match_score := 4/5, similarity := 4/5 }] "q" := by
  constructor
  · exact ((calculate_confidence_score_amended
        [{ id := 1, title := "t", content := "c", category := "g",
           match_score := 4/5, similarity := 4/5 }] "q").2.1
        { id := 1, title := "t", content := "c", category := "g",
          match_score := 4/5, similarity := 4/5 } [] rfl).1 (by norm_num [effective_best_score])
  · exact (calculate_confidence_score_amended
        [{ id := 2, title := "u", content := "d", category := "h",
           match_score := 2/5, similarity := 2/5 }] "r").2.2 "q"
        [{ id := 1, title := "t", content := "c", category := "g",
           match_score := 4/5, similarity := 4/5 }]
        { id := 2, title := "u", content := "d", category := "h",
          match_score := 2/5, similarity := 2/5 }
        { id := 1, title := "t", content := "c", category := "g",
          match_score := 4/5, similarity := 4/5 } [] [] rfl rfl
        (by norm_num [effective_best_score])

/-- C5 (counterexample to the claim as stated): a message whose
`original_ai_content` is the non-null empty string `""`, updated into
`agent_edited` with new non-empty content, produces **no** EvaluationMetrics
record: Python truthiness (`elif message.original_ai_content:`) treats `""`
like `None`, so `is_edit` stays false. -/
theorem update_message_metrics_counterexample :
    update_message (fun _ _ => some (1/2, 1/2))
        (some { id := 7, conversation_id := 3, content := "draft",
                message_type := MType.ai_draft, confidence_score := none,
                intent := none, agent_type := none, original_ai_content := some "" })
        { content := some "fixed", message_type := some MType.agent_edited } =
      Except.ok ({ id := 7, conversation_id := 3, content := "fixed",
                   message_type := MType.agent_edited, confidence_score := none,
                   intent := none, agent_type := none,
                   original_ai_content := some "" }, []) ∧
      (some "" : Option String) ≠ none := by
  exact ⟨rfl, by decide⟩

/-- C5 (amended): whenever the resolved original AI content is a non-empty
string, the final message type is `agent_edited`, the post-update content is
non-empty and the evaluation computation succeeds with scores in [0,1], the
update produces exactly one EvaluationMetrics record carrying those scores,
linked to the message and its conversation. -/
theorem update_message_edit_metrics_amended
    (evalFn : String → String → Option (ℚ × ℚ)) (m : MessageRec) (u : MessageUpdate)
    (o : String) (b s : ℚ)
    (ho : u.original_ai_content = some o ∨
      (u.original_ai_content = none ∧ m.original_ai_content = some o))
    (hone : o ≠ "")
    (htype : u.message_type.getD m.message_type = MType.agent_edited)
    (hcont : u.content.getD m.content ≠ "")
    (heval : evalFn o (u.content.getD m.content) = some (b, s))
    (hb0 : 0 ≤ b) (hb1 : b ≤ 1) (hs0 : 0 ≤ s) (hs1 : s ≤ 1) :
    ∃ m', update_message evalFn (some m) u = Except.ok (m',
        [{ message_id := m.id, conversation_id := m.conversation_id,
           bleu_score := some b, semantic_similarity := some s,
           csat_score := none }]) ∧
      m'.content = u.content.getD m.content ∧
      m'.message_type = MType.agent_edited ∧
      0 ≤ b ∧ b ≤ 1 ∧ 0 ≤ s ∧ s ≤ 1 := by
  have htr : truthyOptStr (some o) = true := by
    simp [truthyOptStr, hone]
  have hc : ((u.content.getD m.content) == "") = false := by
    simp [hcont]
  refine ⟨{ m with
      content := u.content.getD m.content,
      message_type := u.message_type.getD m.message_type,
      confidence_score := match u.confidence_score with
        | some c => some c
        | none => m.confidence_score,
      original_ai_content := match u.original_ai_content with
        | some o2 => some o2
        | none => m.original_ai_content,
      intent := match u.intent with
        | some i => some i
        | none => m.intent,
      agent_type := match u.agent_type with
        | some a => some a
        | none => m.agent_type }, ?_, rfl, htype, hb0, hb1, hs0, hs1⟩
  rcases ho with ho | ⟨ho1, ho2⟩
  · simp only [update_message, ho, htr, htype, hc, heval, Bool.not_false, Bool.and_true,
      decide_eq_true_eq, if_true, Bool.and_self, decide_True]
  · simp only [update_message, ho1, ho2, htr, htype, hc, heval, Bool.not_false, Bool.and_true,
      decide_eq_true_eq, if_true, Bool.and_self, decide_True]

/-- Witness for the amended C5 theorem at a concrete edit. -/
theorem update_message_edit_metrics_amended_witness :
    ∃ m', update_message (fun _ _ => some (1/2, 3/5))
        (some { id := 7, conversation_id := 3, content := "draft",
                message_type := MType.ai_draft, confidence_score := none,
                intent := none, agent_type := none,
                original_ai_content := some "orig" })
        { content := some "fixed", message_type := some MType.agent_edited } =
      Except.ok (m', [{ message_id := 7, conversation_id := 3,
                        bleu_score := some (1/2), semantic_similarity := some (3/5),
                        csat_score := none }]) ∧
      m'.content = "fixed" ∧ m'.message_type = MType.agent_edited ∧
      (0 : ℚ) ≤ 1/2 ∧ (1/2 : ℚ) ≤ 1 ∧ (0 : ℚ) ≤ 3/5 ∧ (3/5 : ℚ) ≤ 1 := by
  simpa using update_message_edit_metrics_amended (fun _ _ => some (1/2, 3/5))
    { id := 7, conversation_id := 3, content := "draft",
      message_type := MType.ai_draft, confidence_score := none,
      intent := none, agent_type := none, original_ai_content := some "orig" }
    { content := some "fixed", message_type := some MType.agent_edited }
    "orig" (1/2) (3/5) (Or.inr ⟨rfl, rfl⟩) (by decide) rfl (by decide) rfl
    (by norm_num) (by norm_num) (by norm_num) (by norm_num)

/-- C6 (counterexample to the claim as stated): a message that already holds
`original_ai_content = "old"` is updated with `original_ai_content = "new"`;
the endpoint signals no error and silently overwrites the stored value. -/
theorem update_message_overwrite_counterexample :
    update_message (fun _ _ => none)
        (some { id := 1, conversation_id := 1, content := "c",
                message_type := MType.ai_draft, confidence_score := none,
                intent := none, agent_type := none,
                original_ai_content := some "old" })
        { original_ai_content := some "new" } =
      Except.ok ({ id := 1, conversation_id := 1, content := "c",
                   message_type := MType.ai_draft, confidence_score := none,
                   intent := none, agent_type := none,
                   original_ai_content := some "new" }, []) := by
  rfl

/-- C6 (amended): `update_message` never rejects an `original_ai_content`
overwrite — whenever the update supplies the field it replaces the stored
value unconditionally, and the stored value is preserved exactly when the
update omits the field. -/
theorem update_message_original_ai_content_amended
    (evalFn : String → String → Option (ℚ × ℚ)) (m : MessageRec) (u : MessageUpdate) :
    (∀ v, u.original_ai_content = some v →
      ∃ m' ms, update_message evalFn (some m) u = Except.ok (m', ms) ∧
        m'.original_ai_content = some v) ∧
    (u.original_ai_content = none →
      ∃ m' ms, update_message evalFn (some m) u = Except.ok (m', ms) ∧
        m'.original_ai_content = m.original_ai_content) := by
  constructor
  · intro v hv
    refine ⟨_, _, rfl, ?_⟩
    simp [hv]
  · intro hv
    refine ⟨_, _, rfl, ?_⟩
    simp [hv]

/-- Witness for the amended C6 theorem: the overwrite goes through at a
concrete message. -/
theorem update_message_original_ai_content_amended_witness :
    ∃ m' ms, update_message (fun _ _ => none)
        (some { id := 1, conversation_id := 1, content := "c",
                message_type := MType.ai_draft, confidence_score := none,
                intent := none, agent_type := none,
                original_ai_content := some "old" })
        { original_ai_content := some "new" } = Except.ok (m', ms) ∧
      m'.original_ai_content = some "new" :=
  (update_message_original_ai_content_amended (fun _ _ => none)
    { id := 1, conversation_id := 1, content := "c",
      message_type := MType.ai_draft, confidence_score := none,
      intent := none, agent_type := none, original_ai_content := some "old" }
    { original_ai_content := some "new" }).1 "new" rfl

/-- C7 (counterexample to the claim as stated): editing a `customer` message
is *not* rejected — `update_message` changes its content and returns
success. -/
theorem update_customer_message_counterexample :
    update_message (fun _ _ => none)
        (some { id := 2, conversation_id := 1, content := "where is my order",
                message_type := MType.customer, confidence_score := none,
                intent := none, agent_type := none, original_ai_content := none })
        { content := some "altered" } =
      Except.ok ({ id := 2, conversation_id := 1, content := "altered",
                   message_type := MType.customer, confidence_score := none,
                   intent := none, agent_type := none,
                   original_ai_content := none }, []) := by
  rfl

/-- C7 (amended): deleting a `customer` message is rejected with a 403 (the
endpoint aborts before `db.delete`, leaving the row untouched), while
editing one always succeeds — `update_message` performs no message-type
check. -/
theorem customer_message_protection_amended (m : MessageRec)
    (hc : m.message_type = MType.customer) :
    delete_message (some m) = Except.error 403 ∧
    ∀ (evalFn : String → String → Option (ℚ × ℚ)) (u : MessageUpdate),
      ∃ m' ms, update_message evalFn (some m) u = Except.ok (m', ms) := by
  refine ⟨?_, fun evalFn u => ⟨_, _, rfl⟩⟩
  simp [delete_message, hc]

/-- Witness for the amended C7 theorem at a concrete customer message. -/
theorem customer_message_protection_amended_witness :
    delete_message
        (some { id := 2, conversation_id := 1, content := "q",
                message_type := MType.customer, confidence_score := none,
                intent := none, agent_type := none, original_ai_content := none }) =
      Except.error 403 ∧
    ∃ m' ms, update_message (fun _ _ => none)
        (some { id := 2, conversation_id := 1, content := "q",
                message_type := MType.customer, confidence_score := none,
                intent := none, agent_type := none, original_ai_content := none })
        { content := some "altered" } = Except.ok (m', ms) := by
  have h := customer_message_protection_amended
    { id := 2, conversation_id := 1, content := "q",
      message_type := MType.customer, confidence_score := none,
      intent := none, agent_type := none, original_ai_content := none } rfl
  exact ⟨h.1, h.2 (fun _ _ => none) { content := some "altered" }⟩

lemma sumSq_cons (a : ℚ) (l : List ℚ) : sumSq (a :: l) = a * a + sumSq l := rfl

lemma sumSq_nonneg (v : List ℚ) : 0 ≤ sumSq v := by
  induction v with
  | nil => exact le_refl 0
  | cons a l ih =>
    rw [sumSq_cons]
    exact add_nonneg (mul_self_nonneg a) ih

lemma sumSq_eq_zero_iff (v : List ℚ) : sumSq v = 0 ↔ ∀ x ∈ v, x = 0 := by
  induction v with
  | nil => simp [sumSq]
  | cons a l ih =>
    rw [sumSq_cons]
    constructor
    · intro h
      have ha : a * a = 0 ∧ sumSq l = 0 := by
        constructor <;> nlinarith [mul_self_nonneg a, sumSq_nonneg l]
      intro x hx
      rcases List.mem_cons.mp hx with rfl | hx
      · exact mul_self_eq_zero.mp ha.1
      · exact ih.mp ha.2 x hx
    · intro h
      have ha : a = 0 := h a (List.mem_cons_self a l)
      have hl : sumSq l = 0 := ih.mpr (fun x hx => h x (List.mem_cons_of_mem a hx))
      rw [ha, hl]
      ring

lemma normL2_eq_zero_iff (v : List ℚ) : normL2 v = 0 ↔ ∀ x ∈ v, x = 0 := by
  unfold normL2
  rw [Real.sqrt_eq_zero']
  rw [← sumSq_eq_zero_iff]
  constructor
  · intro h
    have h0 : (0 : ℝ) ≤ (sumSq v : ℝ) := by exact_mod_cast sumSq_nonneg v
    have : (sumSq v : ℝ) = 0 := le_antisymm h h0
    exact_mod_cast this
  · intro h
    rw [h]
    norm_num

lemma sum_map_eq_range (f : ℚ → ℚ) (l : List ℚ) :
    (l.map f).sum = ∑ i in Finset.range l.length, f (l.getD i 0) := by
  induction l with
  | nil => simp
  | cons a l ih =>
    rw [List.map_cons, List.sum_cons, ih, List.length_cons, Finset.sum_range_succ']
    simp [List.getD_cons_succ, List.getD_cons_zero, add_comm]

lemma sumSq_eq_range (l : List ℚ) :
    sumSq l = ∑ i in Finset.range l.length, l.getD i 0 * l.getD i 0 :=
  sum_map_eq_range (fun x => x * x) l

lemma sumSq_eq_rangeN (l : List ℚ) {N : ℕ} (h : l.length ≤ N) :
    sumSq l = ∑ i in Finset.range N, l.getD i 0 * l.getD i 0 := by
  rw [sumSq_eq_range]
  refine Finset.sum_subset (Finset.range_subset.mpr h) ?_
  intro i _ hi
  rw [List.getD_eq_default]
  · ring
  · exact le_of_not_lt (fun hlt => hi (Finset.mem_range.mpr hlt))

lemma dotList_eq_range (l1 : List ℚ) :
    ∀ (l2 : List ℚ) (N : ℕ), l1.length ≤ N → l2.length ≤ N →
      dotList l1 l2 = ∑ i in Finset.range N, l1.getD i 0 * l2.getD i 0 := by
  induction l1 with
  | nil =>
    intro l2 N _ _
    simp [dotList]
  | cons a l1 ih =>
    intro l2 N h1 h2
    cases l2 with
    | nil =>
      simp [dotList]
    | cons b l2 =>
      cases N with
      | zero => simp at h1
      | succ M =>
        have hd : dotList (a :: l1) (b :: l2) = a * b + dotList l1 l2 := rfl
        rw [hd, Finset.sum_range_succ']
        simp only [List.getD_cons_succ, List.getD_cons_zero]
        rw [ih l2 M (by simpa using h1) (by simpa using h2)]
        ring

lemma cauchy_schwarz_list (l1 l2 : List ℚ) :
    dotList l1 l2 ^ 2 ≤ sumSq l1 * sumSq l2 := by
  have h1 : l1.length ≤ max l1.length l2.length := le_max_left _ _
  have h2 : l2.length ≤ max l1.length l2.length := le_max_right _ _
  rw [dotList_eq_range l1 l2 (max l1.length l2.length) h1 h2,
    sumSq_eq_rangeN l1 h1, sumSq_eq_rangeN l2 h2]
  simpa only [pow_two] using
    Finset.sum_mul_sq_le_sq_mul_sq (Finset.range (max l1.length l2.length))
      (fun i => l1.getD i 0) (fun i => l2.getD i 0)

lemma normL2_nonneg (v : List ℚ) : 0 ≤ normL2 v := Real.sqrt_nonneg _

lemma abs_dot_le_norms (v1 v2 : List ℚ) :
    |((dotList v1 v2 : ℚ) : ℝ)| ≤ normL2 v1 * normL2 v2 := by
  have hcs : (((dotList v1 v2 : ℚ) : ℝ)) ^ 2 ≤
      ((sumSq v1 : ℚ) : ℝ) * ((sumSq v2 : ℚ) : ℝ) := by
    exact_mod_cast cauchy_schwarz_list v1 v2
  have hs1 : (0 : ℝ) ≤ ((sumSq v1 : ℚ) : ℝ) := by exact_mod_cast sumSq_nonneg v1
  calc |((dotList v1 v2 : ℚ) : ℝ)|
      = Real.sqrt (((dotList v1 v2 : ℚ) : ℝ) ^ 2) := (Real.sqrt_sq_eq_abs _).symm
    _ ≤ Real.sqrt (((sumSq v1 : ℚ) : ℝ) * ((sumSq v2 : ℚ) : ℝ)) := Real.sqrt_le_sqrt hcs
    _ = normL2 v1 * normL2 v2 := Real.sqrt_mul hs1 _

lemma cosine_similarity_mem_Icc (v1 v2 : List ℚ) :
    -1 ≤ cosine_similarity v1 v2 ∧ cosine_similarity v1 v2 ≤ 1 := by
  unfold cosine_similarity
  split
  · norm_num
  · rename_i hcond
    push_neg at hcond
    obtain ⟨h1, h2⟩ := hcond
    have hn1 : 0 < normL2 v1 := lt_of_le_of_ne (normL2_nonneg v1) (Ne.symm h1)
    have hn2 : 0 < normL2 v2 := lt_of_le_of_ne (normL2_nonneg v2) (Ne.symm h2)
    have hpos : 0 < normL2 v1 * normL2 v2 := mul_pos hn1 hn2
    have habs : |((dotList v1 v2 : ℚ) : ℝ) / (normL2 v1 * normL2 v2)| ≤ 1 := by
      rw [abs_div, abs_of_pos hpos]
      exact div_le_one_of_le (abs_dot_le_norms v1 v2) (le_of_lt hpos)
    exact abs_le.mp habs

lemma cosine_similarity_py_eq_some (v1 v2 : List ℚ) (h : v1.length = v2.length) :
    cosine_similarity_py v1 v2 = some (cosine_similarity v1 v2) := by
  unfold cosine_similarity_py np_dot cosine_similarity
  rw [if_pos h]
  exact (apply_ite some _ _ _).symm

/-- C10 (counterexample to the claim as stated): `np.dot` raises
`ValueError` on 1-D vectors of different lengths and `cosine_similarity`
does not catch it, so at `[1, 2]` and `[1]` the program raises instead of
returning the quotient of dot product and norms — the function is not total
on all pairs of real vectors. -/
theorem cosine_similarity_not_total_counterexample :
    cosine_similarity_py [1, 2] [1] = none ∧
    ([1, 2] : List ℚ).length ≠ ([1] : List ℚ).length := by
  constructor
  · unfold cosine_similarity_py np_dot
    rw [if_neg (by decide)]
  · decide

/-- C10 (amended): `cosine_similarity` raises (returns no value) exactly on
vectors of different lengths; on every pair of equal-length vectors it is
total — a vector has zero L2 norm exactly when all its entries are zero, on
such input the function returns 0.0, and otherwise it returns the dot
product divided by the (provably non-zero) product of the two norms. -/
theorem cosine_similarity_total_amended (v1 v2 : List ℚ) :
    (v1.length ≠ v2.length → cosine_similarity_py v1 v2 = none) ∧
    (v1.length = v2.length →
      (normL2 v1 = 0 ↔ ∀ x ∈ v1, x = 0) ∧
      ((normL2 v1 = 0 ∨ normL2 v2 = 0) → cosine_similarity_py v1 v2 = some 0) ∧
      (normL2 v1 ≠ 0 → normL2 v2 ≠ 0 →
        normL2 v1 * normL2 v2 ≠ 0 ∧
        cosine_similarity_py v1 v2 =
          some (((dotList v1 v2 : ℚ) : ℝ) / (normL2 v1 * normL2 v2)))) := by
  constructor
  · intro h
    unfold cosine_similarity_py np_dot
    rw [if_neg h]
  · intro h
    refine ⟨normL2_eq_zero_iff v1, ?_, ?_⟩
    · intro hz
      unfold cosine_similarity_py np_dot
      rw [if_pos h]
      show (if normL2 v1 = 0 ∨ normL2 v2 = 0 then some (0 : ℝ)
          else some (((dotList v1 v2 : ℚ) : ℝ) / (normL2 v1 * normL2 v2))) =
        some 0
      rw [if_pos hz]
    · intro h1 h2
      have hn1 : 0 < normL2 v1 := lt_of_le_of_ne (normL2_nonneg v1) (Ne.symm h1)
      have hn2 : 0 < normL2 v2 := lt_of_le_of_ne (normL2_nonneg v2) (Ne.symm h2)
      refine ⟨ne_of_gt (mul_pos hn1 hn2), ?_⟩
      unfold cosine_similarity_py np_dot
      rw [if_pos h]
      show (if normL2 v1 = 0 ∨ normL2 v2 = 0 then some (0 : ℝ)
          else some (((dotList v1 v2 : ℚ) : ℝ) / (normL2 v1 * normL2 v2))) =
        some (((dotList v1 v2 : ℚ) : ℝ) / (normL2 v1 * normL2 v2))
      rw [if_neg (not_or.mpr ⟨h1, h2⟩)]

/-- Witness for the amended C10 theorem at concrete vectors: mismatched
lengths raise, the equal-length zero vector yields 0, and on non-degenerate
equal-length vectors the guarded division is taken with a non-zero
denominator. -/
theorem cosine_similarity_total_amended_witness :
    cosine_similarity_py [1, 2] [3] = none ∧
    cosine_similarity_py [0, 0] [1, 1] = some 0 ∧
    normL2 [1] * normL2 [2] ≠ 0 ∧
    cosine_similarity_py [1] [2] =
      some (((dotList [1] [2] : ℚ) : ℝ) / (normL2 [1] * normL2 [2])) := by
  have hz : normL2 [0, 0] = 0 :=
    ((cosine_similarity_total_amended [0, 0] [1, 1]).2 rfl).1.mpr (by decide)
  have hne1 : normL2 [1] ≠ 0 := fun h => by
    have h1 := ((cosine_similarity_total_amended [1] [2]).2 rfl).1.mp h
    exact absurd (h1 1 (List.mem_cons_self 1 [])) (by norm_num)
  have hne2 : normL2 [2] ≠ 0 := fun h => by
    have h2 := ((cosine_similarity_total_amended [2] [1]).2 rfl).1.mp h
    exact absurd (h2 2 (List.mem_cons_self 2 [])) (by norm_num)
  have hmain := ((cosine_similarity_total_amended [1] [2]).2 rfl).2.2 hne1 hne2
  refine ⟨(cosine_similarity_total_amended [1, 2] [3]).1 (by decide),
    ((cosine_similarity_total_amended [0, 0] [1, 1]).2 rfl).2.1 (Or.inl hz),
    hmain.1, hmain.2⟩

/-- C9: the keyword search scores every returned match as
`|query tokens ∩ article tokens| / |query tokens|` (lowercased word sets over
`title + content + tags`), returns them sorted by descending `match_score`,
and returns at most `top_k` of them. -/
theorem search_knowledge_base_keyword_spec (q : String) (kb : List KBArticle) (k : ℕ)
    (hkb : kb ≠ []) :
    List.Sorted (fun a b => b.match_score ≤ a.match_score)
        (search_knowledge_base_keyword q kb k) ∧
      (search_knowledge_base_keyword q kb k).length ≤ k ∧
      ∀ r ∈ search_knowledge_base_keyword q kb k, ∃ a ∈ kb,
        r.id = a.id ∧ r.title = a.title ∧ r.content = a.content ∧
        r.category = a.category ∧
        r.match_score = ((tokenSet (strLower q) ∩
            tokenSet (strLower (a.title ++ " " ++ a.content ++ " " ++ a.tags))).card : ℚ) /
          ((tokenSet (strLower q)).card : ℚ) ∧
        r.similarity = r.match_score := by
  refine ⟨?_, ?_, ?_⟩
  · exact List.Pairwise.sublist (List.take_sublist _ _)
      (sorted_sortByDesc (fun a : Article => a.match_score) _)
  · rw [search_knowledge_base_keyword, List.length_take]
    exact min_le_left _ _
  · intro r hr
    rw [search_knowledge_base_keyword] at hr
    have hr' := List.take_subset _ _ hr
    rw [mem_sortByDesc, List.mem_filterMap] at hr'
    obtain ⟨a, ha, hfa⟩ := hr'
    refine ⟨a, ha, ?_⟩
    by_cases hcommon : tokenSet (strLower q) ∩
        tokenSet (strLower (a.title ++ " " ++ a.content ++ " " ++ a.tags)) = ∅
    · simp [hcommon] at hfa
    · have hq : tokenSet (strLower q) ≠ ∅ := by
        intro h0
        exact hcommon (by rw [h0]; exact Finset.empty_inter _)
      simp only [hcommon, hq, ne_eq, not_false_eq_true, if_true, ite_true,
        Option.some.injEq] at hfa
      subst hfa
      exact ⟨rfl, rfl, rfl, rfl, rfl, rfl⟩

/-- Witness for C9 at a concrete query and one-article knowledge base. -/
theorem search_knowledge_base_keyword_spec_witness :
    List.Sorted (fun a b => b.match_score ≤ a.match_score)
        (search_knowledge_base_keyword "return policy"
          [{ id := 1, title := "Return Policy", content := "Returns within 30 days",
             category := "Returns", tags := "returns" }] 3) ∧
      (search_knowledge_base_keyword "return policy"
          [{ id := 1, title := "Return Policy", content := "Returns within 30 days",
             category := "Returns", tags := "returns" }] 3).length ≤ 3 ∧
      ∀ r ∈ search_knowledge_base_keyword "return policy"
          [{ id := 1, title := "Return Policy", content := "Returns within 30 days",
             category := "Returns", tags := "returns" }] 3,
        ∃ a ∈ [({ id := 1, title := "Return Policy", content := "Returns within 30 days",
                  category := "Returns", tags := "returns" } : KBArticle)],
          r.id = a.id ∧ r.title = a.title ∧ r.content = a.content ∧
          r.category = a.category ∧
          r.match_score = ((tokenSet (strLower "return policy") ∩
              tokenSet (strLower (a.title ++ " " ++ a.content ++ " " ++ a.tags))).card : ℚ) /
            ((tokenSet (strLower "return policy")).card : ℚ) ∧
          r.similarity = r.match_score :=
  search_knowledge_base_keyword_spec "return policy"
    [{ id := 1, title := "Return Policy", content := "Returns within 30 days",
       category := "Returns", tags := "returns" }] 3 (by decide)

lemma intent_scores_of_eq_filterMap_map (emb : String → Option (List ℚ)) (u : List ℚ) :
    intent_scores_of emb u =
      (INTENT_EXAMPLES.map (fun ie => (ie.1, exEmbs emb ie.2))).filterMap
        (fun p => match p.2 with
          | [] => none
          | _ :: _ => some (p.1, topAvg u p.2)) := by
  rw [List.filterMap_map]
  rfl

lemma topAvg_singleton (u e : List ℚ) : topAvg u [e] = cosine_similarity u e := by
  unfold topAvg
  simp [sortByDesc, insertDesc]

lemma normL2_single_one : normL2 [1] = 1 := by
  have h : (sumSq [1] : ℚ) = 1 := by norm_num [sumSq]
  unfold normL2
  rw [h]
  norm_num

lemma normL2_single_negone : normL2 [-1] = 1 := by
  have h : (sumSq [-1] : ℚ) = 1 := by norm_num [sumSq]
  unfold normL2
  rw [h]
  norm_num

lemma cosine_one_one : cosine_similarity [1] [1] = 1 := by
  unfold cosine_similarity
  rw [normL2_single_one]
  rw [if_neg (by norm_num)]
  have hd : (dotList [1] [1] : ℚ) = 1 := by norm_num [dotList]
  rw [hd]
  norm_num

lemma cosine_one_negone : cosine_similarity [1] [-1] = -1 := by
  unfold cosine_similarity
  rw [normL2_single_one, normL2_single_negone]
  rw [if_neg (by norm_num)]
  have hd : (dotList [1] [-1] : ℚ) = -1 := by norm_num [dotList]
  rw [hd]
  norm_num

/-- C4 (amended): the fixed `{general, 0.7}` short-greeting rule lives only
in the keyword fallback path: `classify_intent_keyword` returns it for every
message of at most 3 tokens containing a greeting word, and `classify_intent`
returns it only by delegation when no embedding is produced — the embedding
scoring path applies no such bypass (see the counterexample). -/
theorem classify_intent_greeting_amended (msg : String) (emb : String → Option (List ℚ))
    (hg : greetings.any (fun g => strHas (strLower msg) g) = true)
    (hlen : (pyTokens (strLower msg)).length ≤ 3) :
    classify_intent_keyword msg = { intent := "general", confidence := 7/10 } ∧
    (emb (strLower msg) = none →
      classify_intent emb msg =
        { intent := "general", confidence := ((7/10 : ℚ) : ℝ) }) := by
  have hk : classify_intent_keyword msg = { intent := "general", confidence := 7/10 } := by
    unfold classify_intent_keyword
    rw [if_pos (by simp [hg, hlen])]
  refine ⟨hk, fun he => ?_⟩
  unfold classify_intent
  simp only [he]
  rw [hk]

/-- Witness for the amended C4 theorem at the greeting "hi" with no embedding
backend. -/
theorem classify_intent_greeting_amended_witness :
    classify_intent_keyword "hi" = { intent := "general", confidence := 7/10 } ∧
    classify_intent (fun _ => none) "hi" =
      { intent := "general", confidence := ((7/10 : ℚ) : ℝ) } := by
  have h := classify_intent_greeting_amended "hi" (fun _ => none) (by decide) (by decide)
  exact ⟨h.1, h.2 rfl⟩

/-- C4 (counterexample to the claim as stated): under an embedding behaviour
where only "hello" (and the example "Hello") embeds, the greeting "hello" —
one token, greeting word present — takes the embedding scoring path and
comes out with confidence 1, not the claimed fixed 0.7: `classify_intent`
has no short-greeting bypass. -/
theorem classify_intent_no_greeting_bypass_counterexample :
    greetings.any (fun g => strHas (strLower "hello") g) = true ∧
    (pyTokens (strLower "hello")).length ≤ 3 ∧
    (classify_intent embHello "hello").intent = "general" ∧
    (classify_intent embHello "hello").confidence = 1 ∧
    (1 : ℝ) ≠ ((7/10 : ℚ) : ℝ) := by
  have hmap : INTENT_EXAMPLES.map (fun ie => (ie.1, exEmbs embHello ie.2)) =
      [("faq", []), ("order_inquiry", []), ("technical_support", []),
       ("complaint", []), ("general", [[1]])] := by decide
  have hscores : intent_scores_of embHello [1] =
      [("general", cosine_similarity [1] [1])] := by
    rw [intent_scores_of_eq_filterMap_map, hmap]
    simp [List.filterMap_cons, topAvg_singleton]
  have hres : classify_intent embHello "hello" =
      { intent := "general", confidence := 1 } := by
    have hu : embHello (strLower "hello") = some [1] := by decide
    unfold classify_intent
    simp only [hu]
    rw [hscores, cosine_one_one]
    simp [sortByDesc, insertDesc]
  refine ⟨by decide, by decide, ?_, ?_, by norm_num⟩
  · rw [hres]
  · rw [hres]

lemma avg_bounds_list (l : List ℝ) (h : l ≠ []) (hlo : ∀ x ∈ l, -1 ≤ x)
    (hhi : ∀ x ∈ l, x ≤ 1) :
    -1 ≤ l.sum / (l.length : ℝ) ∧ l.sum / (l.length : ℝ) ≤ 1 := by
  have hl : 0 < (l.length : ℝ) := by
    have := List.length_pos.mpr h
    exact_mod_cast this
  constructor
  · rw [le_div_iff hl]
    have hsum := List.card_nsmul_le_sum l (-1) hlo
    rw [nsmul_eq_mul] at hsum
    linarith
  · rw [div_le_one hl]
    have hsum := List.sum_le_card_nsmul l 1 hhi
    rw [nsmul_eq_mul] at hsum
    linarith

lemma topAvg_bounds (u : List ℚ) (es : List (List ℚ)) (h : es ≠ []) :
    -1 ≤ topAvg u es ∧ topAvg u es ≤ 1 := by
  have hs : es.map (fun e => cosine_similarity u e) ≠ [] := by
    simp [h]
  have hlen : (sortByDesc (fun x : ℝ => x)
      (es.map (fun e => cosine_similarity u e))).length =
      (es.map (fun e => cosine_similarity u e)).length :=
    length_sortByDesc _ _
  have htne : (sortByDesc (fun x : ℝ => x)
      (es.map (fun e => cosine_similarity u e))).take 3 ≠ [] := by
    intro h0
    have hc := congrArg List.length h0
    rw [List.length_take, hlen] at hc
    simp only [List.length_nil, Nat.min_eq_zero_iff] at hc
    rcases hc with hc | hc
    · omega
    · exact hs (List.length_eq_zero.mp hc)
  have hmem : ∀ x ∈ (sortByDesc (fun x : ℝ => x)
      (es.map (fun e => cosine_similarity u e))).take 3, -1 ≤ x ∧ x ≤ 1 := by
    intro x hx
    have hx1 := List.take_subset _ _ hx
    rw [mem_sortByDesc] at hx1
    obtain ⟨e, _, rfl⟩ := List.mem_map.mp hx1
    exact cosine_similarity_mem_Icc u e
  exact avg_bounds_list _ htne (fun x hx => (hmem x hx).1) (fun x hx => (hmem x hx).2)

lemma intent_scores_of_mem_bounds (emb : String → Option (List ℚ)) (u : List ℚ) :
    ∀ p ∈ intent_scores_of emb u, -1 ≤ p.2 ∧ p.2 ≤ 1 := by
  intro p hp
  unfold intent_scores_of at hp
  rw [List.mem_filterMap] at hp
  obtain ⟨ie, _, hie⟩ := hp
  rcases hE : exEmbs emb ie.2 with _ | ⟨e, es⟩
  · rw [hE] at hie
    simp at hie
  · rw [hE] at hie
    have hp2 := Option.some_injective _ hie
    rw [← hp2]
    exact topAvg_bounds u (e :: es) (by simp)

lemma kpScore_bounds (user_lower : String) (p : KPat) :
    0 ≤ kpScore user_lower p ∧ kpScore user_lower p ≤ 1 := by
  simp only [kpScore]
  split_ifs with h
  · constructor
    · exact le_min (div_nonneg (by positivity) (le_of_lt h)) (by norm_num)
    · exact min_le_right _ _
  · norm_num

lemma boost_bounds (c : ℚ) (h0 : 0 ≤ c) (h1 : c ≤ 1) :
    0 ≤ (if c > 3/5 then min (c + 1/10) (17/20) else c) ∧
    (if c > 3/5 then min (c + 1/10) (17/20) else c) ≤ 1 := by
  split_ifs with h
  · constructor
    · exact le_min (by linarith) (by norm_num)
    · exact le_trans (min_le_right _ _) (by norm_num)
  · exact ⟨h0, h1⟩

lemma foldl_max_mem (s : String × ℚ) (rest : List (String × ℚ)) :
    rest.foldl (fun acc y => if y.2 > acc.2 then y else acc) s ∈ s :: rest := by
  induction rest generalizing s with
  | nil => exact List.mem_singleton.mpr rfl
  | cons y ys ih =>
    rw [List.foldl_cons]
    have h := ih (if y.2 > s.2 then y else s)
    rcases List.mem_cons.mp h with heq | hmem
    · by_cases hy : y.2 > s.2
      · rw [if_pos hy] at heq ⊢
        rw [heq]
        exact List.mem_cons_of_mem s (List.mem_cons_self y ys)
      · rw [if_neg hy] at heq ⊢
        rw [heq]
        exact List.mem_cons_self s _
    · exact List.mem_cons_of_mem s (List.mem_cons_of_mem y hmem)

lemma classify_intent_keyword_bounds (msg : String) :
    0 ≤ (classify_intent_keyword msg).confidence ∧
    (classify_intent_keyword msg).confidence ≤ 1 := by
  simp only [classify_intent_keyword]
  split
  · exact ⟨by norm_num, by norm_num⟩
  · simp only [keyword_patterns, List.map_cons, List.map_nil]
    split
    · exact ⟨by norm_num, by norm_num⟩
    · have hmem := foldl_max_mem
        ("order_inquiry", kpScore (strLower msg)
          { strong := ["order #", "tracking", "track order", "order status", "where is my order"],
            medium := ["order", "shipment", "delivery", "package"],
            weak := ["cancel", "modify", "change order"] })
        [("technical_support", kpScore (strLower msg)
          { strong := ["not working", "error message", "can\x27t log", "won\x27t load", "keeps crashing"],
            medium := ["error", "bug", "crash", "broken", "login issue"],
            weak := ["help", "problem", "issue", "trouble"] }),
         ("complaint", kpScore (strLower msg)
          { strong := ["file a complaint", "very disappointed", "this is unacceptable", "terrible service"],
            medium := ["complaint", "unhappy", "disappointed", "frustrated", "angry"],
            weak := ["bad", "damaged", "wrong", "defective", "poor"] }),
         ("faq", kpScore (strLower msg)
          { strong := ["return policy", "refund policy", "shipping cost", "business hours"],
            medium := ["policy", "how do i", "what is", "do you have", "can i"],
            weak := ["return", "refund", "shipping", "warranty"] })]
      simp only [List.mem_cons, List.not_mem_nil, or_false] at hmem
      rcases hmem with heq | heq | heq | heq <;>
        · rw [heq]
          exact boost_bounds _ (kpScore_bounds _ _).1 (kpScore_bounds _ _).2

/-- C8 (amended): the keyword fallback confidence always lies in [0,1];
the embedding path confidence lies in [-1,1] — its value is built from
cosine similarities, which may be negative, and the code imposes no lower
clamp at 0 (see the counterexample). -/
theorem classify_intent_confidence_bounds_amended (msg : String)
    (emb : String → Option (List ℚ)) :
    (0 ≤ (classify_intent_keyword msg).confidence ∧
      (classify_intent_keyword msg).confidence ≤ 1) ∧
    (-1 ≤ (classify_intent emb msg).confidence ∧
      (classify_intent emb msg).confidence ≤ 1) := by
  refine ⟨classify_intent_keyword_bounds msg, ?_⟩
  unfold classify_intent
  rcases hu : emb (strLower msg) with _ | u
  · dsimp only
    have hk := classify_intent_keyword_bounds msg
    constructor
    · calc (-1 : ℝ) ≤ 0 := by norm_num
        _ ≤ ((classify_intent_keyword msg).confidence : ℝ) := by exact_mod_cast hk.1
    · exact_mod_cast hk.2
  · rcases hsc : intent_scores_of emb u with _ | ⟨s, rest⟩
    · simp only [hsc]
      exact ⟨by norm_num, by norm_num⟩
    · simp only [hsc]
      have hmemall := intent_scores_of_mem_bounds emb u
      rw [hsc] at hmemall
      rcases hsort : sortByDesc (fun p : String × ℝ => p.2) (s :: rest)
        with _ | ⟨best, _ | ⟨second, tail⟩⟩
      · simp only [hsort]
        exact ⟨by norm_num, by norm_num⟩
      · simp only [hsort]
        have hbest : best ∈ s :: rest := by
          rw [← mem_sortByDesc (fun p : String × ℝ => p.2), hsort]
          exact List.mem_cons_self _ _
        exact hmemall best hbest
      · simp only [hsort]
        have hbest : best ∈ s :: rest := by
          rw [← mem_sortByDesc (fun p : String × ℝ => p.2), hsort]
          exact List.mem_cons_self _ _
        have hb := hmemall best hbest
        split_ifs
        · exact ⟨le_min (by linarith [hb.1]) (by norm_num), min_le_right _ _⟩
        · exact ⟨le_min (by linarith [hb.1]) (by norm_num), min_le_right _ _⟩
        · exact hb

/-- C8 (counterexample to the claim as stated): under an embedding behaviour
where the user message embeds to `[1]` and the only embeddable example
("Hello") embeds to `[-1]`, the embedding path confidence is the cosine
similarity -1, which is outside [0,1]. -/
theorem classify_intent_confidence_counterexample :
    (classify_intent embNeg "ugh").confidence = -1 ∧
    ¬(0 ≤ (classify_intent embNeg "ugh").confidence) := by
  have hmap : INTENT_EXAMPLES.map (fun ie => (ie.1, exEmbs embNeg ie.2)) =
      [("faq", []), ("order_inquiry", []), ("technical_support", []),
       ("complaint", []), ("general", [[-1]])] := by decide
  have hscores : intent_scores_of embNeg [1] =
      [("general", cosine_similarity [1] [-1])] := by
    rw [intent_scores_of_eq_filterMap_map, hmap]
    simp [List.filterMap_cons, topAvg_singleton]
  have hres : classify_intent embNeg "ugh" =
      { intent := "general", confidence := -1 } := by
    have hu : embNeg (strLower "ugh") = some [1] := by decide
    unfold classify_intent
    simp only [hu]
    rw [hscores, cosine_one_negone]
    simp [sortByDesc, insertDesc]
  rw [hres]
  exact ⟨rfl, by norm_num⟩
